import Mathlib

/-!
Verification of the VM clone dialog (src/components/vm/vmCloneDialog.tsx).

The dialog probes the filesystem of the first disk of a virtual machine to
decide whether reflink cloning can be offered, and then invokes an external
clone tool. External commands (virsh domblklist, df, cp, rm, virt-clone)
are modelled by an environment that fixes each command outcome; the
JavaScript string operations used by the parsing code (split on a newline,
trim, split on runs of whitespace) are embedded as structural recursions
over the character list of a string so that every definition evaluates.
-/

namespace VmCloneDialog

/-- Splits a character list at every occurrence of a character satisfying
`p`, keeping empty pieces, exactly as the JavaScript `split` does for a
single-character separator. `splitWhen p []` is `[[]]` because in
JavaScript splitting the empty string yields one empty piece. -/
def splitWhen (p : Char → Bool) : List Char → List (List Char)
  | [] => [[]]
  | a :: rest =>
    let r := splitWhen p rest
    if p a then [] :: r
    else
      match r with
      | [] => [[a]]
      | h :: t => (a :: h) :: t

/-- JavaScript `output.split(<newline>)`: the lines of a string, empty
lines included. -/
def jsSplitNl (s : String) : List String :=
  (splitWhen (fun c => c = Char.ofNat 10) s.data).map String.mk

/-- JavaScript `s.trim()`: remove leading and trailing whitespace
characters. -/
def jsTrim (s : String) : String :=
  String.mk (((s.data.dropWhile Char.isWhitespace).reverse.dropWhile
      Char.isWhitespace).reverse)

/-- JavaScript `line.trim().split(<whitespace-run pattern>)`: after
trimming, the maximal runs of non-whitespace characters; splitting the
empty string yields a single empty token, as in JavaScript. -/
def jsTrimSplitWs (line : String) : List String :=
  let t := (jsTrim line).data
  if t = [] then [""]
  else ((splitWhen Char.isWhitespace t).filter (fun x => x ≠ [])).map String.mk

/-- The loop of the disk locator (vmCloneDialog.tsx lines 82-89): scan the
given lines for the first whose tokenisation has at least two tokens with
a second token that is non-empty and not a dash, and return that second
token. -/
def findDiskPathLoop : List String → Option String
  | [] => none
  | line :: rest =>
    let parts := jsTrimSplitWs line
    if 2 ≤ parts.length ∧ parts[1]! ≠ "" ∧ parts[1]! ≠ "-" then
      some parts[1]!
    else
      findDiskPathLoop rest

/-- The disk locator (vmCloneDialog.tsx lines 80-89): split the domblklist
output into lines, skip the header line, and scan the remaining lines. -/
def findDiskPath (output : String) : Option String :=
  findDiskPathLoop ((jsSplitNl output).drop 1)

/-- The path field of one data row as the claim describes it: the second
whitespace-separated token, provided the row has at least two tokens and
that token is non-empty and not the placeholder dash. -/
def rowPath (line : String) : Option String :=
  let parts := jsTrimSplitWs line
  if 2 ≤ parts.length ∧ parts[1]! ≠ "" ∧ parts[1]! ≠ "-" then
    some parts[1]!
  else
    none

/-- The probe result state `fsInfo` (vmCloneDialog.tsx line 68). -/
structure FileSystemInfo where
  hasReflink : Bool
  fsType : String
deriving DecidableEq

/-- Outcome of one external command invocation: resolved with its standard
output, or rejected. -/
inductive SpawnResult where
  | ok (output : String)
  | err (msg : String)
deriving DecidableEq

/-- The environment of the probe effect (vmCloneDialog.tsx lines 73-131):
the outcome each external command would have if spawned. `cpReflinkOk`
tells whether the trial `cp --reflink=always` would succeed. -/
structure Env where
  domblklist : SpawnResult
  df : SpawnResult
  cpReflinkOk : Bool
deriving DecidableEq

/-- The observable outcome of the probe effect: the final values of the
`fsInfo`, `useReflink` and `isCheckingFs` states, together with which
external commands were spawned. `dfTarget` is the path `df` was invoked
on, `cpTarget` the source path of the trial copy (its destination is that
path with `.test` appended), and `rmTarget` the path removed by `rm -f`. -/
structure ProbeResult where
  fsInfo : FileSystemInfo
  useReflink : Bool
  isCheckingFs : Bool
  dfTarget : Option String
  cpTarget : Option String
  rmTarget : Option String
deriving DecidableEq

/-- The states as they stand when the effect starts: `fsInfo` at its
default, `useReflink` unchecked, `isCheckingFs` just set to true, no
command spawned yet. -/
def initProbe : ProbeResult :=
  { fsInfo := { hasReflink := false, fsType := "" }
    useReflink := false
    isCheckingFs := true
    dfTarget := none
    cpTarget := none
    rmTarget := none }

/-- The continuation run on the `df` output (vmCloneDialog.tsx lines
93-124): parse the two-line response, and for an xfs or btrfs type attempt
the trial reflink copy; on copy success spawn the cleanup `rm -f` and
record reflink support, on copy failure record the type without support.
A response of fewer than two lines leaves every state untouched. -/
def dfStep (env : Env) (diskPath : String) : ProbeResult :=
  let st := { initProbe with dfTarget := some diskPath }
  match env.df with
  | .err _ => st
  | .ok fsOutput =>
    let fsLines := jsSplitNl fsOutput
    if 2 ≤ fsLines.length then
      let fsType := jsTrim fsLines[1]!
      if fsType = "xfs" ∨ fsType = "btrfs" then
        if env.cpReflinkOk then
          { st with
            cpTarget := some diskPath
            rmTarget := some (diskPath ++ ".test")
            fsInfo := { hasReflink := true, fsType := fsType }
            useReflink := true }
        else
          { st with
            cpTarget := some diskPath
            fsInfo := { hasReflink := false, fsType := fsType } }
      else
        { st with fsInfo := { hasReflink := false, fsType := fsType } }
    else st

/-- The whole probe effect (vmCloneDialog.tsx lines 73-131): spawn
domblklist, locate the first disk path, and if one was found run the `df`
continuation; every rejection is caught and logged only, and the
`finally` clause clears `isCheckingFs` in all cases. -/
def runProbe (env : Env) : ProbeResult :=
  let chain :=
    match env.domblklist with
    | .err _ => initProbe
    | .ok output =>
      match findDiskPath output with
      | none => initProbe
      | some diskPath => dfStep env diskPath
  { chain with isCheckingFs := false }

/-- The dialog state relevant to cloning: the name field, the in-progress
flag, the streamed clone output, the error state, the reflink choice and
probe result, and whether the modal is open (vmCloneDialog.tsx lines
63-70; `isOpen` models `Dialogs.close` having been called). -/
structure DialogState where
  newVmName : String
  inProgress : Bool
  virtCloneOutput : String
  dialogError : Option String
  useReflink : Bool
  hasReflink : Bool
  isOpen : Bool
deriving DecidableEq

/-- Modelled from the spec: `isEmpty` from helpers.js (not under src/)
tests that a string is empty; the spec says the name must be non-empty
after trimming. -/
def isEmptyStr (s : String) : Bool := s = ""

/-- `validateParams` (vmCloneDialog.tsx lines 133-139): the validation
object, holding a name error exactly when the trimmed name is empty. An
empty validation object is modelled as `none` (`isObjectEmpty` from
helpers.js, not under src/, is modelled from the spec as the object
having no entries). -/
def validateParams (s : DialogState) : Option String :=
  if isEmptyStr (jsTrim s.newVmName) then some "Name must not be empty" else none

/-- The clone command line built by `onClone` (vmCloneDialog.tsx lines
151-161). -/
def cloneArgs (connectionName name : String) (s : DialogState) : List String :=
  ["virt-clone", "--connect", "qemu:///" ++ connectionName,
   "--original", name, "--name", s.newVmName] ++
  (if s.useReflink && s.hasReflink then ["--reflink"] else ["--auto-clone"])

/-- Outcome of one submission attempt: the dialog state after the
synchronous part of `onClone`, and the argument list of the spawned
virt-clone process when one was spawned. -/
structure CloneAttempt where
  state : DialogState
  spawned : Option (List String)
deriving DecidableEq

/-- `onClone` (vmCloneDialog.tsx lines 141-174), up to the spawn: if
validation fails, clear the in-progress flag and return without spawning;
otherwise set the in-progress flag and spawn virt-clone with the built
arguments. -/
def onClone (connectionName name : String) (s : DialogState) : CloneAttempt :=
  match validateParams s with
  | some _ => { state := { s with inProgress := false }, spawned := none }
  | none =>
    { state := { s with inProgress := true }
      spawned := some (cloneArgs connectionName name s) }

/-- The two ways a submission can be triggered: clicking the Clone button
(vmCloneDialog.tsx lines 231-236) or submitting the form, e.g. by the
Enter key (lines 181-184). -/
inductive SubmitPath where
  | buttonClick
  | formSubmit
deriving DecidableEq

/-- The disabled predicate of the Clone button (vmCloneDialog.tsx line
232): disabled while a clone is in progress or while validation fails. -/
def cloneButtonDisabled (s : DialogState) : Bool :=
  s.inProgress || !(validateParams s).isNone

/-- One submission attempt: a click on a disabled button does nothing; an
enabled click, and every form submission, calls `onClone`. The form
submit handler (line 183) calls `onClone` unconditionally. -/
def submit (connectionName name : String) (path : SubmitPath) (s : DialogState) :
    CloneAttempt :=
  match path with
  | .buttonClick =>
    if cloneButtonDisabled s then { state := s, spawned := none }
    else onClone connectionName name s
  | .formSubmit => onClone connectionName name s

/-- The stream handler of the spawned clone process (vmCloneDialog.tsx
line 169): each delivered chunk replaces `virtCloneOutput`. -/
def onStream (chunk : String) (s : DialogState) : DialogState :=
  { s with virtCloneOutput := chunk }

/-- The message of the clone failure error: `cockpit.format` of the
literal "Failed to clone VM $0" with the source VM name substituted
(vmCloneDialog.tsx line 172). -/
def cloneFailError (name : String) : String :=
  "Failed to clone VM " ++ name

/-- The resolution handler of the clone spawn (vmCloneDialog.tsx line
170): `Dialogs.close`. -/
def onCloneSuccess (s : DialogState) : DialogState :=
  { s with isOpen := false }

/-- The rejection handler of the clone spawn (vmCloneDialog.tsx lines
170-173): clear the in-progress flag and set the dialog error. -/
def onCloneFailure (name : String) (s : DialogState) : DialogState :=
  { s with inProgress := false, dialogError := some (cloneFailError name) }

/-- The detail shown by the rendered ModalError (vmCloneDialog.tsx line
186): when a dialog error is set, the current `virtCloneOutput`. -/
def modalErrorDetail (s : DialogState) : Option String :=
  if s.dialogError.isSome then some s.virtCloneOutput else none

/-- Whether a spawn outcome is a rejection. -/
def SpawnResult.isErr : SpawnResult → Bool
  | .ok _ => false
  | .err _ => true

/-- Example environment: the only data row carries the placeholder dash. -/
def envNoDisk : Env :=
  { domblklist := .ok "Target Source\nvda -", df := .ok "", cpReflinkOk := false }

/-- Example environment: the domblklist command is rejected. -/
def envDomErr : Env :=
  { domblklist := .err "boom", df := .ok "Type\nxfs", cpReflinkOk := true }

/-- Example environment: a disk at /x, but the df output has one line. -/
def envShortDf : Env :=
  { domblklist := .ok "Target Source\nvda /x", df := .ok "xfs", cpReflinkOk := true }

/-- Example environment: a disk at /x on xfs, trial copy succeeding. -/
def envXfsOk : Env :=
  { domblklist := .ok "Target Source\nvda /x", df := .ok "Type\nxfs", cpReflinkOk := true }

/-- Example environment: a disk at /x on xfs, trial copy failing. -/
def envXfsFail : Env :=
  { domblklist := .ok "Target Source\nvda /x", df := .ok "Type\nxfs", cpReflinkOk := false }

/-- Example environment: a disk at /x on ext4. -/
def envExt4 : Env :=
  { domblklist := .ok "Target Source\nvda /x", df := .ok "Type\next4", cpReflinkOk := true }

/-- The locator loop returns the first line on which `rowPath` yields a
path. -/
theorem findDiskPathLoop_eq_findSome (l : List String) :
    findDiskPathLoop l = l.findSome? rowPath := by
  induction l with
  | nil => rfl
  | cons a t ih =>
    by_cases h : 2 ≤ (jsTrimSplitWs a).length ∧
        (jsTrimSplitWs a)[1]! ≠ "" ∧ (jsTrimSplitWs a)[1]! ≠ "-"
    · simp [findDiskPathLoop, rowPath, h]
    · simp [findDiskPathLoop, rowPath, h, ih]

/-- Reaching the df continuation: when domblklist resolves and a disk path
is found, the probe outcome is the df continuation outcome with the
checking flag cleared. -/
theorem runProbe_ok (env : Env) (s p : String) (hdom : env.domblklist = .ok s)
    (hfind : findDiskPath s = some p) :
    runProbe env = { dfStep env p with isCheckingFs := false } := by
  simp only [runProbe, hdom, hfind]

/-- Claim C1: the disk locator skips the header line and returns the second
whitespace-separated token of the first subsequent row having at least two
tokens whose second token is non-empty and not a dash; when no row
qualifies it returns none and df is never spawned. -/
theorem disk_locator_spec (env : Env) (s : String)
    (hdom : env.domblklist = .ok s) :
    findDiskPath s = ((jsSplitNl s).drop 1).findSome? rowPath ∧
    (findDiskPath s = none → (runProbe env).dfTarget = none) := by
  constructor
  · exact findDiskPathLoop_eq_findSome _
  · intro hnone
    simp [runProbe, hdom, hnone, initProbe]

/-- Witness for C1 at a concrete domblklist output whose only data row has
the placeholder dash as path. -/
theorem disk_locator_spec_witness :
    findDiskPath "Target Source\nvda -" =
      ((jsSplitNl "Target Source\nvda -").drop 1).findSome? rowPath ∧
    (runProbe envNoDisk).dfTarget = none :=
  ⟨(disk_locator_spec envNoDisk _ rfl).1,
   (disk_locator_spec envNoDisk _ rfl).2 (by decide)⟩

/-- Claim C8: a rejected domblklist or a rejected df leaves the probe result at
its default, attempts no trial copy, and the checking flag still
clears. -/
theorem probe_errors_leave_default (env : Env)
    (h : env.domblklist.isErr = true ∨ env.df.isErr = true) :
    (runProbe env).fsInfo = { hasReflink := false, fsType := "" } ∧
    (runProbe env).useReflink = false ∧
    (runProbe env).cpTarget = none ∧
    (runProbe env).isCheckingFs = false := by
  unfold runProbe
  cases hdom : env.domblklist with
  | err m => simp [initProbe]
  | ok s =>
    cases hfind : findDiskPath s with
    | none => simp [hfind, initProbe]
    | some p =>
      cases hdf : env.df with
      | err m => simp [hfind, dfStep, hdf, initProbe]
      | ok t =>
        rcases h with h | h
        · rw [hdom] at h; simp [SpawnResult.isErr] at h
        · rw [hdf] at h; simp [SpawnResult.isErr] at h

/-- Witness for C8 at a rejected domblklist. -/
theorem probe_errors_leave_default_witness :
    (runProbe envDomErr).fsInfo = { hasReflink := false, fsType := "" } ∧
    (runProbe envDomErr).useReflink = false ∧
    (runProbe envDomErr).cpTarget = none ∧
    (runProbe envDomErr).isCheckingFs = false :=
  probe_errors_leave_default _ (Or.inl (by decide))

/-- Claim C9: when df resolves with fewer than two lines, no trial copy is
attempted and the probe result silently stays at its default. -/
theorem short_df_output_leaves_default (env : Env) (s p t : String)
    (hdom : env.domblklist = .ok s) (hfind : findDiskPath s = some p)
    (hdf : env.df = .ok t) (hlen : (jsSplitNl t).length < 2) :
    (runProbe env).cpTarget = none ∧
    (runProbe env).fsInfo = { hasReflink := false, fsType := "" } ∧
    (runProbe env).useReflink = false := by
  rw [runProbe_ok env s p hdom hfind]
  simp [dfStep, hdf, Nat.not_le_of_lt hlen, initProbe]

/-- Witness for C9 at a df output consisting of a single line. -/
theorem short_df_output_leaves_default_witness :
    (runProbe envShortDf).cpTarget = none ∧
    (runProbe envShortDf).fsInfo = { hasReflink := false, fsType := "" } ∧
    (runProbe envShortDf).useReflink = false :=
  short_df_output_leaves_default envShortDf _ "/x" _ rfl (by decide) rfl (by decide)

/-- Claim C2: when the df output parses (at least two lines), the trial reflink
copy is attempted on the probed disk path exactly when the detected
filesystem type string is xfs or btrfs; for any other detected type,
including the empty string, no trial copy is spawned. -/
theorem trial_copy_iff_xfs_btrfs (env : Env) (s p t : String)
    (hdom : env.domblklist = .ok s) (hfind : findDiskPath s = some p)
    (hdf : env.df = .ok t) (hlen : 2 ≤ (jsSplitNl t).length) :
    (runProbe env).cpTarget =
      (if jsTrim (jsSplitNl t)[1]! = "xfs" ∨ jsTrim (jsSplitNl t)[1]! = "btrfs"
       then some p else none) := by
  rw [runProbe_ok env s p hdom hfind]
  simp only [dfStep, hdf, if_pos hlen]
  by_cases hfs : jsTrim (jsSplitNl t)[1]! = "xfs" ∨ jsTrim (jsSplitNl t)[1]! = "btrfs"
  · rw [if_pos hfs, if_pos hfs]
    cases env.cpReflinkOk <;> rfl
  · rw [if_neg hfs, if_neg hfs]
    rfl

/-- Witness for C2: on ext4 the trial copy is not spawned. -/
theorem trial_copy_iff_xfs_btrfs_witness :
    (runProbe envExt4).cpTarget =
      (if jsTrim (jsSplitNl "Type\next4")[1]! = "xfs" ∨
          jsTrim (jsSplitNl "Type\next4")[1]! = "btrfs"
       then some "/x" else none) :=
  trial_copy_iff_xfs_btrfs envExt4 _ "/x" _ rfl (by decide) rfl (by decide)

/-- Claim C3: when the trial copy runs, success records reflink support with the
detected type and checks the reflink choice by default; failure records no
support with the detected type still recorded and leaves the reflink
choice unchecked. -/
theorem trial_copy_outcome (env : Env) (s p t : String)
    (hdom : env.domblklist = .ok s) (hfind : findDiskPath s = some p)
    (hdf : env.df = .ok t) (hlen : 2 ≤ (jsSplitNl t).length)
    (hxb : jsTrim (jsSplitNl t)[1]! = "xfs" ∨ jsTrim (jsSplitNl t)[1]! = "btrfs") :
    (env.cpReflinkOk = true →
      (runProbe env).fsInfo =
        { hasReflink := true, fsType := jsTrim (jsSplitNl t)[1]! } ∧
      (runProbe env).useReflink = true) ∧
    (env.cpReflinkOk = false →
      (runProbe env).fsInfo =
        { hasReflink := false, fsType := jsTrim (jsSplitNl t)[1]! } ∧
      (runProbe env).useReflink = false) := by
  rw [runProbe_ok env s p hdom hfind]
  simp only [dfStep, hdf, if_pos hlen, if_pos hxb]
  constructor
  · intro hcp; rw [hcp]; exact ⟨rfl, rfl⟩
  · intro hcp; rw [hcp]; exact ⟨rfl, rfl⟩

/-- Witness for C3 at an xfs disk whose trial copy succeeds. -/
theorem trial_copy_outcome_witness :
    (runProbe envXfsOk).fsInfo =
      { hasReflink := true, fsType := jsTrim (jsSplitNl "Type\nxfs")[1]! } ∧
    (runProbe envXfsOk).useReflink = true :=
  (trial_copy_outcome envXfsOk _ "/x" _ rfl (by decide) rfl (by decide)
    (by decide)).1 rfl

/-- Claim C4 counterexample: on an xfs disk whose trial copy fails, the trial
copy is spawned but the cleanup removal of the .test sibling is not. -/
theorem cleanup_not_unconditional_cex :
    (runProbe envXfsFail).cpTarget = some "/x" ∧
    (runProbe envXfsFail).rmTarget = none := by decide

/-- Claim C4 amended: the removal of the .test sibling is spawned exactly when
the trial copy is spawned and succeeds; a failed trial copy spawns no
removal. -/
theorem cleanup_only_after_successful_copy (env : Env) :
    (runProbe env).rmTarget =
      (if env.cpReflinkOk then ((runProbe env).cpTarget).map (· ++ ".test")
       else none) := by
  cases hdom : env.domblklist with
  | err m => cases env.cpReflinkOk <;> simp [runProbe, hdom, initProbe]
  | ok s =>
    cases hfind : findDiskPath s with
    | none => cases env.cpReflinkOk <;> simp [runProbe, hdom, hfind, initProbe]
    | some p =>
      rw [runProbe_ok env s p hdom hfind]
      cases hdf : env.df with
      | err m => cases env.cpReflinkOk <;> simp [dfStep, hdf, initProbe]
      | ok t =>
        by_cases hlen : 2 ≤ (jsSplitNl t).length
        · simp only [dfStep, hdf, if_pos hlen]
          by_cases hfs : jsTrim (jsSplitNl t)[1]! = "xfs" ∨
              jsTrim (jsSplitNl t)[1]! = "btrfs"
          · rw [if_pos hfs]
            cases hcp : env.cpReflinkOk <;> simp [hcp, initProbe]
          · rw [if_neg hfs]
            cases env.cpReflinkOk <;> simp [initProbe]
        · simp only [dfStep, hdf, if_neg hlen]
          cases env.cpReflinkOk <;> simp [initProbe]

/-- Example dialog state: a clone of vmA is already in progress and the
name field holds a valid name. -/
def stInProgress : DialogState :=
  { newVmName := "vmA-clone", inProgress := true, virtCloneOutput := ""
    dialogError := none, useReflink := false, hasReflink := false, isOpen := true }

/-- Example dialog state: idle dialog whose name field holds only
whitespace. -/
def stBlankName : DialogState :=
  { newVmName := "   ", inProgress := false, virtCloneOutput := ""
    dialogError := none, useReflink := false, hasReflink := false, isOpen := true }

/-- Example dialog state: idle dialog whose name field holds a name with
surrounding whitespace. -/
def stPaddedName : DialogState :=
  { newVmName := " foo ", inProgress := false, virtCloneOutput := ""
    dialogError := none, useReflink := false, hasReflink := false, isOpen := true }

/-- Claim C5 counterexample: with a clone already in progress and a valid name,
a form submission invokes the clone command again, spawning a second
virt-clone process. -/
theorem reentrant_form_submit_cex :
    stInProgress.inProgress = true ∧
    (submit "system" "vmA" .formSubmit stInProgress).spawned =
      some ["virt-clone", "--connect", "qemu:///system",
            "--original", "vmA", "--name", "vmA-clone", "--auto-clone"] := by
  decide

/-- Claim C5 amended: while a clone is in progress the Clone button is disabled,
so the button-click path never invokes the clone command; the form-submit
path is not guarded by the in-progress flag and calls onClone
unconditionally. -/
theorem button_blocked_while_in_progress (connectionName name : String)
    (s : DialogState) (h : s.inProgress = true) :
    (submit connectionName name .buttonClick s).spawned = none ∧
    submit connectionName name .formSubmit s = onClone connectionName name s := by
  refine ⟨?_, rfl⟩
  simp [submit, cloneButtonDisabled, h]

/-- Witness for the amended C5 at the in-progress example state. -/
theorem button_blocked_while_in_progress_witness :
    (submit "system" "vmA" .buttonClick stInProgress).spawned = none ∧
    submit "system" "vmA" .formSubmit stInProgress =
      onClone "system" "vmA" stInProgress :=
  button_blocked_while_in_progress "system" "vmA" stInProgress rfl

/-- Claim C6: when the trimmed name is empty, validation fails, no submission
path spawns the clone command, and onClone returns early with the
in-progress flag cleared. -/
theorem empty_name_never_spawns (connectionName name : String)
    (s : DialogState) (path : SubmitPath) (h : jsTrim s.newVmName = "") :
    (submit connectionName name path s).spawned = none ∧
    (onClone connectionName name s).spawned = none ∧
    (onClone connectionName name s).state.inProgress = false ∧
    validateParams s = some "Name must not be empty" := by
  have hv : validateParams s = some "Name must not be empty" := by
    simp [validateParams, isEmptyStr, h]
  have hc : onClone connectionName name s =
      { state := { s with inProgress := false }, spawned := none } := by
    simp [onClone, hv]
  refine ⟨?_, by rw [hc], by rw [hc], hv⟩
  cases path with
  | buttonClick =>
    simp only [submit, cloneButtonDisabled, hv]
    simp [hc]
  | formSubmit => simp [submit, hc]

/-- Witness for C6 at a whitespace-only name submitted through the
form. -/
theorem empty_name_never_spawns_witness :
    (submit "system" "vmA" .formSubmit stBlankName).spawned = none ∧
    (onClone "system" "vmA" stBlankName).spawned = none ∧
    (onClone "system" "vmA" stBlankName).state.inProgress = false ∧
    validateParams stBlankName = some "Name must not be empty" :=
  empty_name_never_spawns "system" "vmA" stBlankName .formSubmit (by decide)

/-- Claim C7: after streaming, a resolved clone closes the dialog; a rejected
clone leaves the dialog open, clears the in-progress flag so only failing
validation can disable the button, and sets an error whose message
contains the source VM name and whose rendered detail is the streamed
output. -/
theorem clone_completion_behaviour (name chunk : String) (s : DialogState)
    (hopen : s.isOpen = true) :
    (onCloneSuccess (onStream chunk s)).isOpen = false ∧
    (onCloneFailure name (onStream chunk s)).isOpen = true ∧
    (onCloneFailure name (onStream chunk s)).inProgress = false ∧
    (onCloneFailure name (onStream chunk s)).dialogError =
      some (cloneFailError name) ∧
    (∃ pre post, cloneFailError name = pre ++ name ++ post) ∧
    modalErrorDetail (onCloneFailure name (onStream chunk s)) = some chunk ∧
    cloneButtonDisabled (onCloneFailure name (onStream chunk s)) =
      !(validateParams s).isNone := by
  refine ⟨rfl, ?_, rfl, rfl, ⟨"Failed to clone VM ", "", by simp [cloneFailError]⟩, ?_, ?_⟩
  · simp [onCloneFailure, onStream, hopen]
  · simp [modalErrorDetail, onCloneFailure, onStream]
  · simp [cloneButtonDisabled, onCloneFailure, onStream, validateParams]

/-- Witness for C7 at the in-progress example state with streamed output
"boom". -/
theorem clone_completion_behaviour_witness :
    (onCloneSuccess (onStream "boom" stInProgress)).isOpen = false ∧
    (onCloneFailure "vmA" (onStream "boom" stInProgress)).isOpen = true ∧
    (onCloneFailure "vmA" (onStream "boom" stInProgress)).inProgress = false ∧
    (onCloneFailure "vmA" (onStream "boom" stInProgress)).dialogError =
      some (cloneFailError "vmA") ∧
    (∃ pre post, cloneFailError "vmA" = pre ++ "vmA" ++ post) ∧
    modalErrorDetail (onCloneFailure "vmA" (onStream "boom" stInProgress)) =
      some "boom" ∧
    cloneButtonDisabled (onCloneFailure "vmA" (onStream "boom" stInProgress)) =
      !(validateParams stInProgress).isNone :=
  clone_completion_behaviour "vmA" "boom" stInProgress rfl

/-- Claim C10: a name that is non-empty after trimming passes validation and is
handed to virt-clone verbatim, untrimmed, as the argument following
"--name". -/
theorem name_passed_verbatim (connectionName name : String) (s : DialogState)
    (h : jsTrim s.newVmName ≠ "") :
    (onClone connectionName name s).spawned = some (cloneArgs connectionName name s) ∧
    (cloneArgs connectionName name s).getD 5 "" = "--name" ∧
    (cloneArgs connectionName name s).getD 6 "" = s.newVmName := by
  have hv : validateParams s = none := by
    simp [validateParams, isEmptyStr, h]
  refine ⟨by simp [onClone, hv], ?_, ?_⟩ <;> simp [cloneArgs]

/-- Witness for C10: the padded name " foo " passes validation and is
passed through with its whitespace intact. -/
theorem name_passed_verbatim_witness :
    (onClone "system" "vmA" stPaddedName).spawned =
      some (cloneArgs "system" "vmA" stPaddedName) ∧
    (cloneArgs "system" "vmA" stPaddedName).getD 5 "" = "--name" ∧
    (cloneArgs "system" "vmA" stPaddedName).getD 6 "" = " foo " :=
  name_passed_verbatim "system" "vmA" stPaddedName (by decide)

end VmCloneDialog
